import Mathlib

/-!
Verification of the record reconciliation and merge engine of the
stagehand-scraper repository (CompanyService in the service module).
The definitions below are a shallow embedding of the TypeScript source:
each Lean function mirrors one function of the source, with the
deterministic fallback path of the similarity judge (the path taken when
no semantic oracle is configured or the oracle call fails), strings for
string values, `Option` for nullable columns, and an explicit list of
records standing for the companies table of the store.
-/

namespace CompanyService

/-- One scraped observation of a company, mirroring the `CompanyData`
interface of the scraper module: every field is a plain string, with the
empty string or the string N/A standing for a missing value, and
`accreditation` one of the strings Accredited, NonAccredited, Unknown. -/
structure CompanyData where
  name : String
  phone : String
  principal_contact : String
  url : String
  address : String
  accreditation : String
  deriving DecidableEq

/-- A stored canonical record, mirroring the `Company` row type of the
store: array columns are nullable lists of strings, `accreditation`,
`source_url` and `page_count` are nullable scalars.  `id` stands for the
store-assigned primary key created at insert. -/
structure Company where
  id : Nat
  name : String
  phones : Option (List String)
  principal_contacts : Option (List String)
  urls : Option (List String)
  addresses : Option (List String)
  accreditation : Option String
  source_url : Option String
  page_count : Option Nat
  deriving DecidableEq

/-- Provenance of a scrape batch, mirroring the `ScrapingMetadata`
interface (only the fields the merge engine writes). -/
structure ScrapingMetadata where
  sourceUrl : String
  pageCount : Nat
  deriving DecidableEq

/-- Aggregate result of `saveCompanies`, mirroring the `SaveResult`
interface: the saved records plus the three counters.  The source result
type has exactly these fields and no separate failure count or failure
list. -/
structure SaveResult where
  savedCompanies : List Company
  duplicatesSkipped : Nat
  duplicatesUpdated : Nat
  totalProcessed : Nat
  deriving DecidableEq

/-- The JavaScript `trim`: drop leading and trailing whitespace.  Written
as structural recursion over the character list so that it evaluates
inside the kernel (the library `String.trim` is extensionally the same on
these inputs but does not reduce definitionally). -/
def jsTrim (s : String) : String :=
  ⟨((s.data.dropWhile Char.isWhitespace).reverse.dropWhile Char.isWhitespace).reverse⟩

/-- The JavaScript `toLowerCase` on the ASCII inputs of this pipeline:
lower-case every character. -/
def jsToLower (s : String) : String :=
  ⟨s.data.map Char.toLower⟩

/-- The JavaScript `split` on the pipe character, over the character
list: each pipe separates two (possibly empty) parts. -/
def splitPipeAux : List Char → List Char → List (List Char)
  | [], acc => [acc.reverse]
  | c :: cs, acc =>
    if c = '|' then acc.reverse :: splitPipeAux cs []
    else splitPipeAux cs (c :: acc)

/-- The JavaScript `"x|y".split('|')`. -/
def jsSplitPipe (s : String) : List String :=
  (splitPipeAux s.data []).map (fun l => ⟨l⟩)

/-- The JavaScript `array.join('|')`. -/
def jsJoinPipe : List String → String
  | [] => ""
  | [x] => x
  | x :: y :: xs => x ++ "|" ++ jsJoinPipe (y :: xs)

/-- The normalized identity key used throughout the source:
`name.toLowerCase().trim()`. -/
def normName (s : String) : String :=
  jsTrim (jsToLower s)

/-- Mirrors `parseMultiValue`: split a pipe separated multi-value string
into its parts, trimming each part and dropping empty and N/A parts; the
empty string and N/A themselves parse to the empty list. -/
def parseMultiValue (value : String) : List String :=
  if value = "" || value = "N/A" then []
  else ((jsSplitPipe value).map jsTrim).filter (fun v => v != "" && v != "N/A")

/-- First-occurrence duplicate removal over a list of strings, the
behaviour of the JavaScript `new Set` spread used by `cleanArrayValues`. -/
def jsSetDedupAux : List String → List String → List String
  | [], _ => []
  | x :: xs, seen =>
    if seen.contains x then jsSetDedupAux xs seen
    else x :: jsSetDedupAux xs (x :: seen)

/-- Duplicate removal preserving the first occurrence of each value. -/
def jsSetDedup (l : List String) : List String :=
  jsSetDedupAux l []

/-- Mirrors `cleanArrayValues`: filter out empty, N/A and whitespace-only
values, then trim the survivors, then drop exact duplicates; a result
with no values becomes null.  Note the source filters BEFORE trimming. -/
def cleanArrayValues (values : List String) : Option (List String) :=
  let cleaned := (values.filter (fun v => v != "" && v != "N/A" && jsTrim v != "")).map jsTrim
  let unique := jsSetDedup cleaned
  if unique.length > 0 then some unique else none

/-- Mirrors the deterministic fallback path of `deduplicateWithAI`, the
similarity judge used when no oracle key is configured or the oracle call
fails: keep exactly the new values that are not literally equal to some
existing value. -/
def deduplicateWithAI (existingValues newValues : List String) : List String :=
  newValues.filter (fun nv => !(existingValues.contains nv))

/-- Mirrors `mergeArrays`: append the judged-new values of `newValues` to
the existing array, treating null as empty and returning null instead of
an empty array. -/
def mergeArrays (existing : Option (List String)) (newValues : List String) : Option (List String) :=
  let existingValues := existing.getD []
  let filteredNewValues := newValues.filter (fun v => v != "" && v != "N/A")
  if filteredNewValues.length = 0 then
    if existingValues.length > 0 then some existingValues else none
  else if existingValues.length = 0 then
    some filteredNewValues
  else
    let uniqueNewValues := deduplicateWithAI existingValues filteredNewValues
    let combined := existingValues ++ uniqueNewValues
    if combined.length > 0 then some combined else none

/-- Mirrors `mergeValuesWithAI`: merge one incoming scalar into a pipe
separated multi-value string using the similarity judge. -/
def mergeValuesWithAI (existing newValue : String) : String :=
  if existing = "N/A" || existing = "" then newValue
  else if newValue = "N/A" || newValue = "" then existing
  else
    match mergeArrays (some (parseMultiValue existing)) [newValue] with
    | some uniqueValues => jsJoinPipe uniqueValues
    | none => existing

/-- One merge step of `mergeCompaniesByName`: fold a later observation of
the same normalized name into the first-seen observation. -/
def mergeInto (existing company : CompanyData) : CompanyData :=
  { existing with
    phone := mergeValuesWithAI existing.phone company.phone,
    principal_contact := mergeValuesWithAI existing.principal_contact company.principal_contact,
    url := mergeValuesWithAI existing.url company.url,
    address := mergeValuesWithAI existing.address company.address,
    accreditation :=
      if company.accreditation = "Accredited" || existing.accreditation = "Unknown"
      then company.accreditation else existing.accreditation }

/-- The insertion-ordered map fold of `mergeCompaniesByName`, with the
JavaScript `Map` modelled as an association list keyed by the normalized
name, preserving key insertion order exactly as `Map.values()` does. -/
def mergeCompaniesByNameAux : List CompanyData → List (String × CompanyData) → List (String × CompanyData)
  | [], acc => acc
  | c :: rest, acc =>
    let key := normName c.name
    if acc.any (fun p => p.1 = key) then
      mergeCompaniesByNameAux rest (acc.map (fun p => if p.1 = key then (p.1, mergeInto p.2 c) else p))
    else
      mergeCompaniesByNameAux rest (acc ++ [(key, c)])

/-- Mirrors `mergeCompaniesByName`: collapse a batch to one candidate per
normalized name. -/
def mergeCompaniesByName (companies : List CompanyData) : List CompanyData :=
  (mergeCompaniesByNameAux companies []).map Prod.snd

/-- Mirrors `getExistingCompaniesByNames`: the bulk existence lookup.
The query filters the companies table with an in-clause over the name
column, which is an EXACT match on the raw stored name, not on the
normalized name. -/
def getExistingCompaniesByNames (store : List Company) (names : List String) : List Company :=
  if names.length = 0 then [] else store.filter (fun c => names.contains c.name)

/-- Kernel-computable lexicographic comparison of character lists by code
point, the order behaviour of the JavaScript default string sort on the
inputs of this pipeline (any total order yields the same equality
verdict after sorting). -/
def chLeB : List Char → List Char → Bool
  | [], _ => true
  | _ :: _, [] => false
  | a :: as, b :: bs =>
    if a.toNat < b.toNat then true
    else if b.toNat < a.toNat then false
    else chLeB as bs

/-- Lexicographic comparison of strings by code point. -/
def strLeB (a b : String) : Bool :=
  chLeB a.data b.data

/-- Sorting used by `arraysEqual`: sort the array of strings by the
lexicographic total order. -/
def strSort (l : List String) : List String :=
  List.insertionSort (fun a b : String => strLeB a b = true) l

/-- Mirrors `arraysEqual`: null equals only null; otherwise compare
lengths, then compare the two arrays element by element after sorting
both. -/
def arraysEqual : Option (List String) → Option (List String) → Bool
  | none, none => true
  | none, some _ => false
  | some _, none => false
  | some a, some b =>
    if a.length = b.length then strSort a == strSort b else false

/-- Mirrors `updateExistingCompanyWithArrays` up to the store write: merge
each array field of the incoming candidate into the existing record, and
return `none` (NoChange, no write) when no array field changed and the
accreditation check found nothing new, otherwise `some` of the record the
engine writes. -/
def updateExistingCompanyWithArrays (existing : Company) (newData : CompanyData)
    (md : ScrapingMetadata) : Option Company :=
  let newPhones := mergeArrays existing.phones (parseMultiValue newData.phone)
  let newPrincipalContacts := mergeArrays existing.principal_contacts (parseMultiValue newData.principal_contact)
  let newUrls := mergeArrays existing.urls (parseMultiValue newData.url)
  let newAddresses := mergeArrays existing.addresses (parseMultiValue newData.address)
  let hasNewInfo :=
    !(arraysEqual existing.phones newPhones) ||
    !(arraysEqual existing.principal_contacts newPrincipalContacts) ||
    !(arraysEqual existing.urls newUrls) ||
    !(arraysEqual existing.addresses newAddresses) ||
    (newData.accreditation != "Unknown" && existing.accreditation != some newData.accreditation)
  if !hasNewInfo then none
  else
    some { existing with
      phones := newPhones,
      principal_contacts := newPrincipalContacts,
      urls := newUrls,
      addresses := newAddresses,
      accreditation :=
        if newData.accreditation = "Unknown" then existing.accreditation
        else some newData.accreditation,
      source_url := some md.sourceUrl,
      page_count := some md.pageCount }

/-- Mirrors the insert mapping of step 4 of `saveCompanies`: build the row
inserted for a company the identity resolver found no match for.  `id`
stands for the store-assigned key. -/
def insertCompany (md : ScrapingMetadata) (id : Nat) (c : CompanyData) : Company :=
  { id := id,
    name := c.name,
    phones := cleanArrayValues [c.phone],
    principal_contacts := cleanArrayValues [c.principal_contact],
    urls := cleanArrayValues [c.url],
    addresses := cleanArrayValues [c.address],
    accreditation := if c.accreditation = "Unknown" then none else some c.accreditation,
    source_url := some md.sourceUrl,
    page_count := some md.pageCount }

/-- State of the step 5 update loop of `saveCompanies`: the store after
the writes so far, the records pushed to `savedCompanies`, and the two
counters. -/
structure UpdateRun where
  store : List Company
  saved : List Company
  updated : Nat
  skipped : Nat
  deriving DecidableEq

/-- The step 5 loop of `saveCompanies`: for each (existing, incoming)
pair, run the merge engine; a NoChange outcome counts as skipped; an
Updated outcome attempts the store write, and a throwing write (modelled
by the `writeFails` predicate on the record id) is caught by the per
record try/catch and ALSO counted as skipped, after which the loop
continues with the remaining pairs. -/
def processUpdates (writeFails : Nat → Bool) (md : ScrapingMetadata) :
    List (Company × CompanyData) → List Company → UpdateRun
  | [], store => { store := store, saved := [], updated := 0, skipped := 0 }
  | (ex, nd) :: rest, store =>
    match updateExistingCompanyWithArrays ex nd md with
    | some u =>
      if writeFails ex.id then
        let r := processUpdates writeFails md rest store
        { r with skipped := r.skipped + 1 }
      else
        let r := processUpdates writeFails md rest
          (store.map (fun c => if c.id = ex.id then u else c))
        { r with saved := u :: r.saved, updated := r.updated + 1 }
    | none =>
      let r := processUpdates writeFails md rest store
      { r with skipped := r.skipped + 1 }

/-- The match of step 3 of `saveCompanies`: the first record of the bulk
lookup result whose NORMALIZED name equals that of the candidate. -/
def findMatch (existingCompanies : List Company) (c : CompanyData) : Option Company :=
  existingCompanies.find? (fun e => normName e.name = normName c.name)

/-- Step 3 of `saveCompanies`: split the batch-merged candidates into the
ones to insert and the (existing, incoming) pairs to update, by searching
the bulk lookup result for the first record whose NORMALIZED name matches
the candidate. -/
def toInsertAndUpdate (store : List Company) (merged : List CompanyData) :
    List CompanyData × List (Company × CompanyData) :=
  let existingCompanies := getExistingCompaniesByNames store (merged.map (fun c => c.name))
  (merged.filter (fun c => (findMatch existingCompanies c).isNone),
   merged.filterMap (fun c => (findMatch existingCompanies c).map (fun e => (e, c))))

/-- A fresh id larger than every id in the store, standing for the store
generated primary keys of a bulk insert. -/
def freshId (store : List Company) : Nat :=
  (store.map Company.id).foldr max 0 + 1

/-- Mirrors `saveCompanies` end to end on the deterministic judge path:
merge the batch by name, bulk-look up the existing records, insert the
unmatched candidates, then run the update loop over the matched pairs.
Returns the store after the run together with the `SaveResult` the caller
receives. -/
def saveCompanies (writeFails : Nat → Bool) (store : List Company)
    (companies : List CompanyData) (md : ScrapingMetadata) : List Company × SaveResult :=
  let merged := mergeCompaniesByName companies
  let split := toInsertAndUpdate store merged
  let inserted := split.1.enum.map (fun p => insertCompany md (freshId store + p.1) p.2)
  let store1 := store ++ inserted
  let r := processUpdates writeFails md split.2 store1
  (r.store,
   { savedCompanies := inserted ++ r.saved,
     duplicatesSkipped := r.skipped,
     duplicatesUpdated := r.updated,
     totalProcessed := companies.length })

/-- A write function that never fails, the path taken when every store
write succeeds. -/
def noFail : Nat → Bool := fun _ => false

/-! Concrete inputs used by the counterexamples and witnesses below. -/

/-- Batch provenance used by the concrete runs. -/
def mdW : ScrapingMetadata := { sourceUrl := "https://example.test", pageCount := 1 }

/-- An accredited stored record with one phone. -/
def exC1 : Company :=
  { id := 3, name := "Acme", phones := some ["p"], principal_contacts := none, urls := none,
    addresses := none, accreditation := some "Accredited", source_url := none, page_count := none }

/-- An incoming candidate carrying no array data and a NonAccredited verdict. -/
def ndC1 : CompanyData :=
  { name := "Acme", phone := "N/A", principal_contact := "N/A", url := "N/A", address := "N/A",
    accreditation := "NonAccredited" }

/-- The record the merge engine writes for `exC1` and `ndC1`: the
accreditation has been downgraded. -/
def updC1 : Company :=
  { id := 3, name := "Acme", phones := some ["p"], principal_contacts := none, urls := none,
    addresses := none, accreditation := some "NonAccredited",
    source_url := some "https://example.test", page_count := some 1 }

/-- A store holding one record whose raw name is Acme. -/
def storeC2 : List Company :=
  [{ id := 1, name := "Acme", phones := some ["p"], principal_contacts := none, urls := none,
     addresses := none, accreditation := none, source_url := none, page_count := none }]

/-- A batch whose single candidate has the same normalized name as the
stored record but a different raw casing. -/
def batchC2 : List CompanyData :=
  [{ name := "ACME", phone := "q", principal_contact := "N/A", url := "N/A", address := "N/A",
     accreditation := "Unknown" }]

/-- A stored record holding the normalized phone of the C3 scenario. -/
def exC3 : Company :=
  { id := 9, name := "Acme Billing", phones := some ["+12107331802"], principal_contacts := none,
    urls := none, addresses := none, accreditation := none, source_url := none, page_count := none }

/-- The incoming candidate of the C3 scenario, carrying the same phone in
a different formatting. -/
def ndC3 : CompanyData :=
  { name := "Acme Billing", phone := "+1 (210) 733-1802", principal_contact := "N/A",
    url := "N/A", address := "N/A", accreditation := "Unknown" }

/-- The record the merge engine writes for `exC3` and `ndC3`: both phone
formats are retained and the outcome is Updated, not NoChange. -/
def updC3 : Company :=
  { id := 9, name := "Acme Billing", phones := some ["+12107331802", "+1 (210) 733-1802"],
    principal_contacts := none, urls := none, addresses := none, accreditation := none,
    source_url := some "https://example.test", page_count := some 1 }

/-- A batch observing the same company twice with two distinct phones. -/
def batchC5 : List CompanyData :=
  [{ name := "Acme", phone := "p", principal_contact := "N/A", url := "N/A", address := "N/A",
     accreditation := "Unknown" },
   { name := "Acme", phone := "q", principal_contact := "N/A", url := "N/A", address := "N/A",
     accreditation := "Unknown" }]

/-- A stored record whose phones column holds an empty array rather than
null. -/
def exC6cex : Company :=
  { id := 5, name := "Emptyarr", phones := some [], principal_contacts := none, urls := none,
    addresses := none, accreditation := none, source_url := none, page_count := none }

/-- An incoming candidate carrying no information at all. -/
def ndC6cex : CompanyData :=
  { name := "Emptyarr", phone := "N/A", principal_contact := "N/A", url := "N/A", address := "N/A",
    accreditation := "Unknown" }

/-- The record the merge engine writes for `exC6cex` and `ndC6cex`: no
array field gained an element and accreditation is unchanged, yet a store
write is issued, turning the empty phones array into null and touching
the provenance columns. -/
def updC6cex : Company :=
  { id := 5, name := "Emptyarr", phones := none, principal_contacts := none, urls := none,
    addresses := none, accreditation := none,
    source_url := some "https://example.test", page_count := some 1 }

/-- A stored record with a nonempty phones array, as every record created
by this pipeline is (array columns are null or nonempty). -/
def exC6w : Company :=
  { id := 11, name := "Gamma", phones := some ["p"], principal_contacts := none, urls := none,
    addresses := none, accreditation := some "Accredited", source_url := none, page_count := none }

/-- An incoming candidate carrying nothing new for `exC6w`. -/
def ndC6w : CompanyData :=
  { name := "Gamma", phone := "p", principal_contact := "N/A", url := "N/A", address := "N/A",
    accreditation := "Unknown" }

/-- A stored record with id 7, used by the write-failure runs. -/
def exC7 : Company :=
  { id := 7, name := "Beta", phones := some ["x"], principal_contacts := none, urls := none,
    addresses := none, accreditation := none, source_url := none, page_count := none }

/-- The store of the write-failure runs. -/
def storeC7 : List Company := [exC7]

/-- A candidate bringing a genuinely new phone for `exC7`. -/
def ndC7a : CompanyData :=
  { name := "Beta", phone := "y", principal_contact := "N/A", url := "N/A", address := "N/A",
    accreditation := "Unknown" }

/-- A candidate bringing nothing new for `exC7`. -/
def ndC7b : CompanyData :=
  { name := "Beta", phone := "x", principal_contact := "N/A", url := "N/A", address := "N/A",
    accreditation := "Unknown" }

/-- The batch holding `ndC7a`. -/
def batchC7a : List CompanyData := [ndC7a]

/-- The batch holding `ndC7b`. -/
def batchC7b : List CompanyData := [ndC7b]

/-- A batch whose single candidate has an empty name. -/
def batchC8 : List CompanyData :=
  [{ name := "", phone := "5551234567", principal_contact := "N/A", url := "N/A", address := "N/A",
     accreditation := "Unknown" }]

/-- A batch whose single candidate carries the sentinel N/A wrapped in
whitespace as its phone value. -/
def batchC9 : List CompanyData :=
  [{ name := "Acme", phone := " N/A ", principal_contact := "N/A", url := "N/A", address := "N/A",
     accreditation := "Unknown" }]

/-! Helper lemmas shared by several claim theorems. -/

/-- Characters with equal code points are equal. -/
theorem char_toNat_inj (a b : Char) (h : a.toNat = b.toNat) : a = b :=
  Char.ext (UInt32.ext h)

/-- Strings with equal character lists are equal. -/
theorem str_data_inj (a b : String) (h : a.data = b.data) : a = b := by
  cases a
  cases b
  congr

/-- The lexicographic comparison is total. -/
theorem chLeB_total (a : List Char) : ∀ b, chLeB a b = true ∨ chLeB b a = true := by
  induction a with
  | nil => intro b; left; rfl
  | cons x xs ih =>
    intro b
    cases b with
    | nil => right; rfl
    | cons y ys =>
      by_cases h1 : x.toNat < y.toNat
      · left; simp [chLeB, h1]
      · by_cases h2 : y.toNat < x.toNat
        · right; simp [chLeB, h2]
        · rcases ih ys with h | h
          · left; simp [chLeB, h1, h2, h]
          · right; simp [chLeB, h1, h2, h]

/-- The lexicographic comparison is transitive. -/
theorem chLeB_trans (a : List Char) :
    ∀ b c, chLeB a b = true → chLeB b c = true → chLeB a c = true := by
  induction a with
  | nil => intro b c _ _; rfl
  | cons x xs ih =>
    intro b c hab hbc
    cases b with
    | nil => simp [chLeB] at hab
    | cons y ys =>
      cases c with
      | nil => simp [chLeB] at hbc
      | cons z zs =>
        simp only [chLeB] at hab hbc ⊢
        by_cases h1 : x.toNat < y.toNat
        · have hzy : ¬ z.toNat < y.toNat := by
            intro hzy
            rw [if_neg (by omega), if_pos hzy] at hbc
            exact Bool.false_ne_true hbc
          rw [if_pos (by omega)]
        · by_cases h2 : y.toNat < x.toNat
          · rw [if_neg h1, if_pos h2] at hab
            exact absurd hab Bool.false_ne_true
          · rw [if_neg h1, if_neg h2] at hab
            by_cases h3 : y.toNat < z.toNat
            · rw [if_pos (by omega)]
            · by_cases h4 : z.toNat < y.toNat
              · rw [if_neg h3, if_pos h4] at hbc
                exact absurd hbc Bool.false_ne_true
              · rw [if_neg h3, if_neg h4] at hbc
                rw [if_neg (by omega), if_neg (by omega)]
                exact ih ys zs hab hbc

/-- The lexicographic comparison is antisymmetric. -/
theorem chLeB_antisymm (a : List Char) :
    ∀ b, chLeB a b = true → chLeB b a = true → a = b := by
  induction a with
  | nil =>
    intro b _ hba
    cases b with
    | nil => rfl
    | cons y ys => simp [chLeB] at hba
  | cons x xs ih =>
    intro b hab hba
    cases b with
    | nil => simp [chLeB] at hab
    | cons y ys =>
      simp only [chLeB] at hab hba
      by_cases h1 : x.toNat < y.toNat
      · rw [if_neg (by omega), if_pos h1] at hba
        exact absurd hba Bool.false_ne_true
      · by_cases h2 : y.toNat < x.toNat
        · rw [if_neg h1, if_pos h2] at hab
          exact absurd hab Bool.false_ne_true
        · rw [if_neg h1, if_neg h2] at hab
          rw [if_neg h2, if_neg h1] at hba
          have hxy : x = y := char_toNat_inj x y (by omega)
          rw [hxy, ih ys hab hba]

instance : IsTotal String (fun a b => strLeB a b = true) :=
  ⟨fun a b => chLeB_total a.data b.data⟩

instance : IsTrans String (fun a b => strLeB a b = true) :=
  ⟨fun a b c => chLeB_trans a.data b.data c.data⟩

instance : IsAntisymm String (fun a b => strLeB a b = true) :=
  ⟨fun a b hab hba => str_data_inj a b (chLeB_antisymm a.data b.data hab hba)⟩

/-- A guarded `none`-or-`some` equals `none` exactly when the guard holds. -/
theorem ite_none_some_eq_none {α : Type} (c : Bool) (r : α) :
    ((if c then none else some r) = none) ↔ c = true := by
  cases c <;> simp

/-- The array comparison of the source is reflexive. -/
theorem arraysEqual_refl (x : Option (List String)) : arraysEqual x x = true := by
  cases x <;> simp [arraysEqual]

/-- Appending a nonempty list is detected by the array comparison. -/
theorem arraysEqual_append_ne (l u : List String) (hu : u ≠ []) :
    arraysEqual (some l) (some (l ++ u)) = false := by
  have hlen : l.length ≠ (l ++ u).length := by
    simp only [List.length_append]
    intro h
    exact hu (List.eq_nil_of_length_eq_zero (by omega))
  simp only [arraysEqual]
  rw [if_neg hlen]

/-- For a stored field that is null or a nonempty array (as every field
written by this pipeline is), the source comparison between the field and
its merge result holds exactly when the merge returned the field
unchanged. -/
theorem arraysEqual_mergeArrays_iff (a : Option (List String)) (new : List String)
    (h : a ≠ some []) :
    arraysEqual a (mergeArrays a new) = true ↔ mergeArrays a new = a := by
  cases a with
  | none =>
    by_cases hf : (new.filter (fun v => v != "" && v != "N/A")).length = 0
    · simp [mergeArrays, hf, arraysEqual]
    · simp [mergeArrays, hf, arraysEqual]
  | some l =>
    have hl : l ≠ [] := fun hnil => h (by rw [hnil])
    have hlpos : 0 < l.length := List.length_pos.mpr hl
    by_cases hf : (new.filter (fun v => v != "" && v != "N/A")).length = 0
    · simp [mergeArrays, hf, arraysEqual_refl, hlpos, Nat.pos_iff_ne_zero.mp hlpos]
    · have hle : l.length ≠ 0 := Nat.pos_iff_ne_zero.mp hlpos
      by_cases hu : deduplicateWithAI l (new.filter (fun v => v != "" && v != "N/A")) = []
      · simp [mergeArrays, hf, hle, hu, arraysEqual_refl, hlpos]
      · have hne := arraysEqual_append_ne l
          (deduplicateWithAI l (new.filter (fun v => v != "" && v != "N/A"))) hu
        have happ : l ++ deduplicateWithAI l (new.filter (fun v => v != "" && v != "N/A")) ≠ l := by
          intro heq
          have := congrArg List.length heq
          simp only [List.length_append] at this
          exact hu (List.eq_nil_of_length_eq_zero (by omega))
        simp [mergeArrays, hf, hle, hlpos, hne, happ]

/-- The merge engine returns NoChange exactly when every array comparison
succeeds and the accreditation check finds nothing new. -/
theorem update_eq_none_iff (ex : Company) (nd : CompanyData) (md : ScrapingMetadata) :
    updateExistingCompanyWithArrays ex nd md = none ↔
      (arraysEqual ex.phones (mergeArrays ex.phones (parseMultiValue nd.phone)) = true ∧
       arraysEqual ex.principal_contacts
         (mergeArrays ex.principal_contacts (parseMultiValue nd.principal_contact)) = true ∧
       arraysEqual ex.urls (mergeArrays ex.urls (parseMultiValue nd.url)) = true ∧
       arraysEqual ex.addresses (mergeArrays ex.addresses (parseMultiValue nd.address)) = true ∧
       (nd.accreditation = "Unknown" ∨ ex.accreditation = some nd.accreditation)) := by
  simp only [updateExistingCompanyWithArrays]
  rw [ite_none_some_eq_none]
  simp [Bool.or_eq_false_iff, Bool.and_eq_false_iff, bne_eq_false_iff_eq,
    Bool.not_eq_true', or_comm, and_assoc]

/-! Claim theorems. -/

/-- C1 counterexample: the claim that a merge never downgrades an
Accredited record is false on the code.  Merging the accredited record
`exC1` with the incoming candidate `ndC1`, whose accreditation is
NonAccredited and not Accredited, yields a written record whose
accreditation is NonAccredited: the merge engine downgraded Accredited. -/
theorem C1_downgrade_cex :
    (updateExistingCompanyWithArrays exC1 ndC1 mdW).map Company.accreditation =
      some (some "NonAccredited") := by decide

/-- C1 amended: the record-merge operation keeps the existing
accreditation only when the incoming value is Unknown; any other incoming
value, including a downgrade from Accredited to NonAccredited, becomes
the written accreditation. -/
theorem C1_accreditation_overwrite (ex : Company) (nd : CompanyData) (md : ScrapingMetadata)
    (u : Company) (h : updateExistingCompanyWithArrays ex nd md = some u) :
    u.accreditation =
      if nd.accreditation = "Unknown" then ex.accreditation else some nd.accreditation := by
  simp only [updateExistingCompanyWithArrays] at h
  split at h
  · exact absurd h (by simp)
  · have := (Option.some_inj.mp h).symm
    rw [this]

/-- C1 witness: the amended accreditation rule evaluated at the concrete
downgrade input. -/
theorem C1_accreditation_overwrite_witness :
    updC1.accreditation =
      (if ndC1.accreditation = "Unknown" then exC1.accreditation else some ndC1.accreditation) :=
  C1_accreditation_overwrite exC1 ndC1 mdW updC1 (by decide)

/-- C2: the bulk existence lookup matches on the raw stored name, not on
the normalized name.  Starting from a store holding one record named
Acme, saving a batch whose candidate is named ACME inserts a second
record instead of routing the candidate to update, leaving the store with
two records of equal normalized name acme. -/
theorem C2_exact_match_duplicate :
    ((saveCompanies noFail storeC2 batchC2 mdW).1.map (fun c => normName c.name)) =
        ["acme", "acme"] ∧
    (saveCompanies noFail storeC2 batchC2 mdW).2.savedCompanies.length = 1 := by decide

/-- C3 counterexample: under the deterministic judge the two phone
formats of the scenario are NOT judged duplicates, and the merge outcome
is Updated rather than NoChange. -/
theorem C3_phone_format_cex :
    deduplicateWithAI ["+12107331802"] ["+1 (210) 733-1802"] = ["+1 (210) 733-1802"] ∧
    (updateExistingCompanyWithArrays exC3 ndC3 mdW).isSome = true := by decide

/-- C3 amended: the deterministic judge treats a candidate as a duplicate
only when it is literally equal to some existing value, with no phone
digit normalization; in the scenario of the claim the incoming format is
therefore kept, the outcome is Updated, and the written record holds both
formats. -/
theorem C3_det_judge_literal :
    (∀ e c v, v ∈ deduplicateWithAI e c ↔ (v ∈ c ∧ v ∉ e)) ∧
    updateExistingCompanyWithArrays exC3 ndC3 mdW = some updC3 := by
  refine ⟨fun e c v => ?_, by decide⟩
  simp [deduplicateWithAI, List.mem_filter]

/-- C3 witness: the amended duplicate criterion evaluated at the two
phone formats of the scenario. -/
theorem C3_det_judge_literal_witness :
    ("+1 (210) 733-1802" ∈ deduplicateWithAI ["+12107331802"] ["+1 (210) 733-1802"] ↔
      ("+1 (210) 733-1802" ∈ ["+1 (210) 733-1802"] ∧
       "+1 (210) 733-1802" ∉ ["+12107331802"])) :=
  C3_det_judge_literal.1 ["+12107331802"] ["+1 (210) 733-1802"] "+1 (210) 733-1802"

/-- C4 counterexample: with an empty existing list, two identical
candidates both survive the judge, and the array merge returns both: the
judge performs no deduplication of the candidates against each other. -/
theorem C4_no_intra_candidate_dedup_cex :
    deduplicateWithAI [] ["x", "x"] = ["x", "x"] ∧
    mergeArrays none ["x", "x"] = some ["x", "x"] := by decide

/-- C4 amended: the deterministic judge returns the candidates that are
not literally equal to any existing value, preserving their order and
multiplicity: a candidate colliding with an existing value is dropped
entirely, while candidates colliding only with each other are all kept. -/
theorem C4_dedupe_count (e c : List String) (v : String) :
    (deduplicateWithAI e c).count v = if e.contains v = true then 0 else c.count v := by
  unfold deduplicateWithAI
  by_cases he : e.contains v = true
  · rw [if_pos he, List.count_eq_zero]
    intro hmem
    have hp := List.of_mem_filter hmem
    rw [he] at hp
    simp at hp
  · rw [if_neg he]
    have hf : e.contains v = false := by
      cases h : e.contains v
      · rfl
      · exact absurd h he
    exact List.count_filter (by rw [hf]; rfl)

/-- C4 witness: the amended count rule evaluated at concrete lists, with
one candidate colliding with the existing list and one repeated
candidate. -/
theorem C4_dedupe_count_witness :
    (deduplicateWithAI ["a"] ["a", "b", "b"]).count "b" =
      (if List.contains ["a"] "b" = true then 0 else (["a", "b", "b"] : List String).count "b") :=
  C4_dedupe_count ["a"] ["a", "b", "b"] "b"

/-- C5: running the batch `batchC5` twice against an initially empty
store is NOT idempotent.  The first run inserts the pipe-joined
multi-value p|q unsplit; the second run parses it into p and q, judges
both new, and produces an Updated outcome with net new array values. -/
theorem C5_not_idempotent :
    (saveCompanies noFail [] batchC5 mdW).1.map Company.phones = [some ["p|q"]] ∧
    (saveCompanies noFail (saveCompanies noFail [] batchC5 mdW).1 batchC5 mdW).2.duplicatesUpdated
      = 1 ∧
    (saveCompanies noFail (saveCompanies noFail [] batchC5 mdW).1 batchC5 mdW).1.map
      Company.phones = [some ["p|q", "p", "q"]] := by decide

/-- C6 counterexample: for a stored record whose phones column is an
empty array, an incoming candidate carrying no information still produces
a store write: the claim that no write is issued when no array field
gained an element and accreditation is unchanged fails on such a record. -/
theorem C6_empty_array_write_cex :
    updateExistingCompanyWithArrays exC6cex ndC6cex mdW = some updC6cex ∧
    updC6cex.phones = none := by decide

/-- C6 amended: for every existing record whose array fields are each
null or nonempty (as all records created by this pipeline are), the merge
returns the NoChange outcome, issuing no store write, exactly when no
array field changed and the accreditation check found nothing new. -/
theorem C6_noChange_iff (ex : Company) (nd : CompanyData) (md : ScrapingMetadata)
    (hp : ex.phones ≠ some []) (hc : ex.principal_contacts ≠ some [])
    (hu : ex.urls ≠ some []) (ha : ex.addresses ≠ some []) :
    updateExistingCompanyWithArrays ex nd md = none ↔
      (mergeArrays ex.phones (parseMultiValue nd.phone) = ex.phones ∧
       mergeArrays ex.principal_contacts (parseMultiValue nd.principal_contact) =
         ex.principal_contacts ∧
       mergeArrays ex.urls (parseMultiValue nd.url) = ex.urls ∧
       mergeArrays ex.addresses (parseMultiValue nd.address) = ex.addresses ∧
       (nd.accreditation = "Unknown" ∨ ex.accreditation = some nd.accreditation)) := by
  rw [update_eq_none_iff]
  rw [arraysEqual_mergeArrays_iff ex.phones (parseMultiValue nd.phone) hp]
  rw [arraysEqual_mergeArrays_iff ex.principal_contacts (parseMultiValue nd.principal_contact) hc]
  rw [arraysEqual_mergeArrays_iff ex.urls (parseMultiValue nd.url) hu]
  rw [arraysEqual_mergeArrays_iff ex.addresses (parseMultiValue nd.address) ha]

/-- C6 witness: the amended NoChange characterization evaluated at a
record with a nonempty phones array and a candidate carrying nothing
new. -/
theorem C6_noChange_iff_witness :
    (updateExistingCompanyWithArrays exC6w ndC6w mdW = none ↔
      (mergeArrays exC6w.phones (parseMultiValue ndC6w.phone) = exC6w.phones ∧
       mergeArrays exC6w.principal_contacts (parseMultiValue ndC6w.principal_contact) =
         exC6w.principal_contacts ∧
       mergeArrays exC6w.urls (parseMultiValue ndC6w.url) = exC6w.urls ∧
       mergeArrays exC6w.addresses (parseMultiValue ndC6w.address) = exC6w.addresses ∧
       (ndC6w.accreditation = "Unknown" ∨ exC6w.accreditation = some ndC6w.accreditation))) :=
  C6_noChange_iff exC6w ndC6w mdW (by decide) (by decide) (by decide) (by decide)

/-- C7 counterexample: a run in which the only store write fails is
indistinguishable from a run in which the record genuinely had nothing
new: both return the same store and the same result with the record
counted in duplicatesSkipped.  The failure is NOT recorded as a separate
per-record failure and the result carries no failed count or failure
list. -/
theorem C7_failure_counted_as_skip_cex :
    saveCompanies (fun i => i == 7) storeC7 batchC7a mdW =
      saveCompanies noFail storeC7 batchC7b mdW ∧
    (saveCompanies (fun i => i == 7) storeC7 batchC7a mdW).2.duplicatesSkipped = 1 := by decide

/-- C7 amended: the update loop never aborts: every (existing, incoming)
pair receives exactly one outcome, so updated plus skipped equals the
number of pairs, and a pair is counted as skipped exactly when its merge
found nothing new or its store write failed — a write failure is caught
per record, counted in duplicatesSkipped, and the loop continues with the
sibling records. -/
theorem C7_update_loop_counts (wf : Nat → Bool) (md : ScrapingMetadata)
    (pairs : List (Company × CompanyData)) (store : List Company) :
    (processUpdates wf md pairs store).updated + (processUpdates wf md pairs store).skipped =
      pairs.length ∧
    (processUpdates wf md pairs store).skipped =
      (pairs.filter (fun p =>
        (updateExistingCompanyWithArrays p.1 p.2 md).isNone || wf p.1.id)).length := by
  induction pairs generalizing store with
  | nil => simp [processUpdates]
  | cons p rest ih =>
    obtain ⟨ex, nd⟩ := p
    cases hcase : updateExistingCompanyWithArrays ex nd md with
    | none =>
      obtain ⟨h1, h2⟩ := ih store
      simp only [List.filter_cons] at h1 h2 ⊢
      simp [processUpdates, hcase] at h1 h2 ⊢
      omega
    | some u =>
      by_cases hwf : wf ex.id = true
      · obtain ⟨h1, h2⟩ := ih store
        simp only [List.filter_cons] at h1 h2 ⊢
        simp [processUpdates, hcase, hwf] at h1 h2 ⊢
        omega
      · obtain ⟨h1, h2⟩ := ih (store.map (fun c => if c.id = ex.id then u else c))
        simp only [List.filter_cons] at h1 h2 ⊢
        simp [processUpdates, hcase, hwf] at h1 h2 ⊢
        omega

/-- C7 witness: the amended loop accounting evaluated at the concrete
failing-write run: one pair, one skip. -/
theorem C7_update_loop_counts_witness :
    ((processUpdates (fun i => i == 7) mdW [(exC7, ndC7a)] storeC7).updated +
       (processUpdates (fun i => i == 7) mdW [(exC7, ndC7a)] storeC7).skipped =
         ([(exC7, ndC7a)] : List (Company × CompanyData)).length ∧
     (processUpdates (fun i => i == 7) mdW [(exC7, ndC7a)] storeC7).skipped =
       (([(exC7, ndC7a)] : List (Company × CompanyData)).filter (fun p =>
         (updateExistingCompanyWithArrays p.1 p.2 mdW).isNone ||
           (fun i => i == 7) p.1.id)).length) :=
  C7_update_loop_counts (fun i => i == 7) mdW [(exC7, ndC7a)] storeC7

/-- C8: the pipeline performs no empty-name validation.  Saving a batch
whose single candidate has the empty name against an empty store silently
inserts an anonymous record with empty name instead of rejecting the
candidate. -/
theorem C8_empty_name_inserted :
    (saveCompanies noFail [] batchC8 mdW).1.map Company.name = [""] ∧
    (saveCompanies noFail [] batchC8 mdW).2.savedCompanies.length = 1 := by decide

/-- C9: the insert path filters sentinels before trimming, so the phone
value N/A wrapped in whitespace passes the filter, is trimmed to the bare
sentinel N/A, and is written into the phones array of the inserted
record. -/
theorem C9_sentinel_inserted :
    cleanArrayValues [" N/A "] = some ["N/A"] ∧
    (saveCompanies noFail [] batchC9 mdW).1.map Company.phones = [some ["N/A"]] := by decide

/-- C10: the array comparison of the source returns true exactly when the
two nullable arrays are equal as multisets: null equals only null, and
two arrays compare equal exactly when one is a permutation of the other. -/
theorem C10_arraysEqual_multiset (a b : Option (List String)) :
    arraysEqual a b = true ↔
      a.map (fun l => Multiset.ofList l) = b.map (fun l => Multiset.ofList l) := by
  cases a with
  | none => cases b <;> simp [arraysEqual]
  | some x =>
    cases b with
    | none => simp [arraysEqual]
    | some y =>
      simp only [arraysEqual, Option.map_some', Option.some_inj, Multiset.coe_eq_coe]
      constructor
      · intro h
        by_cases hl : x.length = y.length
        · rw [if_pos hl] at h
          have hsort : strSort x = strSort y := by
            simpa using h
          have p1 : List.Perm x (strSort x) := (List.perm_insertionSort _ x).symm
          have p2 : List.Perm (strSort y) y := List.perm_insertionSort _ y
          rw [hsort] at p1
          exact p1.trans p2
        · rw [if_neg hl] at h
          exact absurd h (by simp)
      · intro hperm
        rw [if_pos hperm.length_eq]
        have hs : strSort x = strSort y := by
          apply List.eq_of_perm_of_sorted
            ((List.perm_insertionSort _ x).trans
              (hperm.trans (List.perm_insertionSort _ y).symm))
            (List.sorted_insertionSort _ x) (List.sorted_insertionSort _ y)
        simp [hs]

/-- C10 witness: the multiset characterization evaluated at two
rearranged concrete arrays. -/
theorem C10_arraysEqual_multiset_witness :
    (arraysEqual (some ["b", "a"]) (some ["a", "b"]) = true ↔
      (some ["b", "a"] : Option (List String)).map (fun l => Multiset.ofList l) =
        (some ["a", "b"] : Option (List String)).map (fun l => Multiset.ofList l)) :=
  C10_arraysEqual_multiset (some ["b", "a"]) (some ["a", "b"])

end CompanyService
